import Mathlib

/-!
# Verification of the core-kit HTTP microservice scaffold

A shallow embedding, in Lean 4, of the two source files of the repository:

* `httpclient/client.go` — the JSON-over-HTTP client helper `HTTPClient.Send`;
* `service.go` — the service builder (`NewService`, route registration
  `Get/Post/Put/Del/Stream`, the built-in `/health`, `/info`, `/metrics`
  endpoints) and the lifecycle runner `Run` with its signal-triggered
  graceful-shutdown watcher.

Effectful Go code is embedded as pure Lean functions over explicit oracles:
JSON (un)marshalling outcomes, the transport (`Doer.Do`), and body reads are
passed in as arguments, and each embedded function returns a trace recording
its result together with its observable effects (requests issued, log lines
emitted, writes to the caller-supplied destination).

Parts of the repository referenced from these files but defined elsewhere
(the `apierror` package, the API-handler wrappers, `net/http`'s
`Server.Shutdown` contract) are modelled from the specification; their doc
comments say so explicitly.
-/

set_option autoImplicit false

namespace CoreKit

/-! ## Substring search (used to reason about error-message contents) -/

/-- `strContainsAux pat cs` holds when `pat` occurs as a contiguous run
inside `cs`. -/
def strContainsAux (pat : List Char) : List Char → Bool
  | [] => pat.isPrefixOf []
  | c :: cs => pat.isPrefixOf (c :: cs) || strContainsAux pat cs

/-- `strContains hay pat` is true when `pat` occurs as a substring of `hay`. -/
def strContains (hay pat : String) : Bool :=
  strContainsAux pat.toList hay.toList

/-! ## The `apierror` package (not under `src/`)

Modelled from the spec: the client "treats HTTP 404 as a distinguished
entity-not-found error" and "treats any other non-2xx as a structured API
error (decoded from the JSON error body, annotated with the status code)";
a 503 whose body decodes to message "x" yields a structured error carrying
status 503 and message "x". -/

/-- Modelled from the spec: `apierror.APIError`, a structured API error with
a message decoded from the JSON error body and the response status code. -/
structure APIError where
  message : String
  statusCode : Nat
  deriving DecidableEq, Repr

/-- Errors produced by `HTTPClient.Send`.  `wrapped ctx msg` is a
`github.com/pkg/errors` `Wrap`/`Wrapf` of an underlying error `msg` with the
context string `ctx`; `entityNotFound` is the distinguished
`apierror.EntityNotFoundErr` value (modelled from the spec); `api e` is a
structured `apierror.APIError`. -/
inductive SendError where
  | wrapped (context msg : String)
  | entityNotFound
  | api (e : APIError)
  deriving DecidableEq, Repr

/-- The message an error renders to: `pkg/errors` wrapping renders as
`context: cause`; the structured API error renders its message. -/
def SendError.render : SendError → String
  | .wrapped ctx msg => ctx ++ ": " ++ msg
  | .entityNotFound => "entity not found"
  | .api e => e.message

/-! ## `httpclient/client.go` -/

/-- An HTTP request as issued by the client: `http.NewRequest` plus the
header added by `Send`. -/
structure RequestRecord where
  method : String
  url : String
  headers : List (String × String)
  body : String
  deriving DecidableEq, Repr

/-- An HTTP response as seen by `Send`: the status code and the outcome of
`ioutil.ReadAll(resp.Body)` (which may itself fail). -/
structure HTTPResponse where
  statusCode : Nat
  bodyRead : Except String String

/-- `httpclient.HTTPClient`: the `Doer` is passed explicitly to `Send`
below. -/
structure HTTPClient where
  serviceAddress : String

/-- The request `Send` builds: `http.NewRequest(method,
fmt.Sprint(c.ServiceAddress, url), bytes.NewReader(reqBody))` followed by
`req.Header.Add("content-type", "application/json")`. -/
def builtRequest (c : HTTPClient) (method url reqBody : String) : RequestRecord :=
  { method := method, url := c.serviceAddress ++ url
    headers := [("content-type", "application/json")], body := reqBody }

/-- Outcome of a `json.Unmarshal` into the caller's destination.  On
success the destination holds the decoded value.  On failure `Unmarshal`
may still have populated the destination — possibly partially, as with an
`UnmarshalTypeError` it "completes the unmarshaling as best it can" —
before returning the error; `written` is what the destination holds
afterwards (`none` = untouched). -/
inductive DecodeResult (α : Type) where
  | ok (v : α)
  | error (e : String) (written : Option α)

/-- The observable outcome of one `Send` call: the returned error (`none`
means a `nil` error), every request issued through the `Doer`, the value
written into the caller's `respObj` destination (`none` means the
destination was never written), and whether the response body was read. -/
structure SendTrace (α : Type) where
  error : Option SendError
  requests : List RequestRecord
  respObjValue : Option α
  bodyReadAttempted : Bool
  deriving Repr

/-- `HTTPClient.Send` from `httpclient/client.go`, embedded shallowly.

* `payload` — `none` embeds a `nil` payload (the request body stays the
  `nil` byte slice, i.e. empty); `some m` embeds a non-nil payload whose
  `json.Marshal` outcome is `m`.
* `respObj` — `none` embeds a `nil` destination; `some dec` embeds a non-nil
  destination whose `json.Unmarshal` from a body string is `dec`, producing
  the decoded value of type `α`, or an error together with whatever the
  failed unmarshal left in the destination.
* `newRequestErr` — the error outcome of `http.NewRequest`, if any.
* `doer` — the transport (`c.getDoer().Do`).
* `unmarshalAPIError` — `json.Unmarshal` of a body into `apierror.APIError`.
-/
def HTTPClient.Send {α : Type} (c : HTTPClient) (method url : String)
    (payload : Option (Except String String))
    (respObj : Option (String → DecodeResult α))
    (newRequestErr : Option String)
    (doer : RequestRecord → Except String HTTPResponse)
    (unmarshalAPIError : String → Except String APIError) : SendTrace α :=
  match
    (match payload with
     | none => Except.ok ""
     | some (.ok b) => Except.ok b
     | some (.error e) =>
       Except.error (SendError.wrapped "HTTPClient.Send [JSON marshal payload]" e)) with
  | .error e => ⟨some e, [], none, false⟩
  | .ok reqBody =>
    match newRequestErr with
    | some e =>
      ⟨some (.wrapped ("HTTPClient.Send [Method: " ++ method ++ " Path: " ++ url ++ " ]") e),
        [], none, false⟩
    | none =>
      match doer (builtRequest c method url reqBody) with
      | .error e =>
        ⟨some (.wrapped "HTTPClient.Send [Send request]" e),
          [builtRequest c method url reqBody], none, false⟩
      | .ok resp =>
        if resp.statusCode == 404 then
          ⟨some .entityNotFound, [builtRequest c method url reqBody], none, false⟩
        else
          match resp.bodyRead with
          | .error e =>
            ⟨some (.wrapped ("HTTPClient.Send [ReadBody (Method: " ++ method ++ " Path: "
                ++ url ++ " Body: " ++ reqBody ++ ")]") e),
              [builtRequest c method url reqBody], none, true⟩
          | .ok body =>
            if resp.statusCode < 200 || resp.statusCode > 299 then
              match unmarshalAPIError body with
              | .error e =>
                ⟨some (.wrapped ("CardsServiceClient.Send [UnmarshalResponseErr(status code: "
                    ++ toString resp.statusCode ++ " body: " ++ body ++ ")]") e),
                  [builtRequest c method url reqBody], none, true⟩
              | .ok verr =>
                ⟨some (.api { verr with statusCode := resp.statusCode }),
                  [builtRequest c method url reqBody], none, true⟩
            else
              match respObj with
              | none => ⟨none, [builtRequest c method url reqBody], none, true⟩
              | some dec =>
                match dec body with
                | .error e written =>
                  ⟨some (.wrapped ("CardsServiceClient.Send [UnmarshalResponseErr(status code: "
                      ++ toString resp.statusCode ++ " body: " ++ body ++ ")]") e),
                    [builtRequest c method url reqBody], written, true⟩
                | .ok v => ⟨none, [builtRequest c method url reqBody], some v, true⟩

/-! ## JSON values

A small model of Go's `encoding/json` value universe, used for the bodies the
handlers encode and the payloads the wrapper decodes. -/

/-- A JSON value. -/
inductive JValue where
  | null
  | bool (b : Bool)
  | num (n : Int)
  | str (s : String)
  | arr (xs : List JValue)
  | obj (fields : List (String × JValue))
  deriving Repr

/-! ## `service.go`: options and the service builder -/

/-- HTTP method constants, mirroring `net/http`. -/
def MethodGet : String := "GET"

def MethodPost : String := "POST"

def MethodPut : String := "PUT"

def MethodDelete : String := "DELETE"

/-- `corekit.Options`, after the option functions have been applied: name,
version, the dependency-name → probe map (a probe is invoked per `/info`
request), the param map, the port and the TLS settings.  The maps are
association lists in registration order. -/
structure Options where
  name : String
  version : String
  dependenciesInfo : List (String × (Unit → JValue))
  params : List (String × String)
  port : Nat
  certFile : String
  keyFile : String
  httpsEnabled : Bool

/-- What a handler wrote to the `http.ResponseWriter`. -/
inductive ResponseBody where
  | empty
  | json (v : JValue)
  deriving Repr

/-- One handler invocation's observable outcome: status code, the
`content-type` header if set, the body written, and the names of the
dependency probes the handler invoked while producing it. -/
structure HandlerResponse where
  status : Nat
  contentType : Option String
  body : ResponseBody
  probesInvoked : List String

/-- A handler mounted on the `ServeMux`: the three built-in endpoints of
`NewService`, a caller handler wrapped by `s.wrapAPIHandler`, or a caller
handler wrapped by `s.streamAPIHandler`.  `A` and `S` are the domain types
of API and stream handlers. -/
inductive MountedHandler (A S : Type) where
  | health
  | info
  | metrics
  | apiWrapped (h : A)
  | streamWrapped (h : S)

/-- One `ServeMux.Add(method, pattern, handler)` registration. -/
structure MuxEntry (A S : Type) where
  method : String
  pattern : String
  handler : MountedHandler A S

/-- The service value built by `NewService`: its options and the sequence of
registrations made on its `ServeMux`. -/
structure ServiceState (A S : Type) where
  options : Options
  mux : List (MuxEntry A S)

/-- `corekit.NewService`: mounts `GET /health`, `GET /info` and
`GET /metrics` on the mux, in that order. -/
def NewService (A S : Type) (o : Options) : ServiceState A S :=
  { options := o
    mux := [⟨MethodGet, "/health", .health⟩,
            ⟨MethodGet, "/info", .info⟩,
            ⟨MethodGet, "/metrics", .metrics⟩] }

/-- The `/health` closure of `NewService`: `w.WriteHeader(http.StatusOK)`
and nothing else — no body write, no header set, no probe invoked. -/
def healthHandler : HandlerResponse :=
  { status := 200, contentType := none, body := .empty, probesInvoked := [] }

/-- The `/info` closure of `NewService`: sets `content-type:
application/json`, invokes every registered dependency probe, and encodes
the four-field object. -/
def infoHandler (o : Options) : HandlerResponse :=
  { status := 200
    contentType := some "application/json"
    body := .json (.obj
      [("name", .str o.name),
       ("version", .str o.version),
       ("params", .obj (o.params.map fun p => (p.1, .str p.2))),
       ("dependencies", .obj (o.dependenciesInfo.map fun d => (d.1, d.2 ())))])
    probesInvoked := o.dependenciesInfo.map Prod.fst }

/-- `service.Get`: registers the handler, wrapped by `s.wrapAPIHandler`,
under `http.MethodGet` at `path`. -/
def ServiceState.Get {A S : Type} (s : ServiceState A S) (path : String) (h : A) :
    ServiceState A S :=
  { s with mux := s.mux ++ [⟨MethodGet, path, .apiWrapped h⟩] }

/-- `service.Post`. -/
def ServiceState.Post {A S : Type} (s : ServiceState A S) (path : String) (h : A) :
    ServiceState A S :=
  { s with mux := s.mux ++ [⟨MethodPost, path, .apiWrapped h⟩] }

/-- `service.Put`. -/
def ServiceState.Put {A S : Type} (s : ServiceState A S) (path : String) (h : A) :
    ServiceState A S :=
  { s with mux := s.mux ++ [⟨MethodPut, path, .apiWrapped h⟩] }

/-- `service.Del`: registers under `http.MethodDelete`. -/
def ServiceState.Del {A S : Type} (s : ServiceState A S) (path : String) (h : A) :
    ServiceState A S :=
  { s with mux := s.mux ++ [⟨MethodDelete, path, .apiWrapped h⟩] }

/-- `service.Stream`: registers the handler, wrapped by
`s.streamAPIHandler`, under `http.MethodGet` at `path`. -/
def ServiceState.Stream {A S : Type} (s : ServiceState A S) (path : String) (h : S) :
    ServiceState A S :=
  { s with mux := s.mux ++ [⟨MethodGet, path, .streamWrapped h⟩] }

/-! ## `service.go`: the lifecycle runner -/

/-- A line emitted through the configured logger.  The source tags every
line with a `[INFO]` or `[ERROR]` prefix; we keep the tag structural. -/
inductive LogLine where
  | info (msg : String)
  | error (msg : String)
  deriving DecidableEq, Repr

/-- Whether a log line is an `[ERROR]` line. -/
def LogLine.isError : LogLine → Bool
  | .error _ => true
  | .info _ => false

/-- An OS signal as delivered to the process. -/
inductive OSSignal where
  | sigint
  | sigterm
  | sighup
  | other (n : Nat)
  deriving DecidableEq, Repr

/-- The signals `Run` subscribes to:
`signal.Notify(ch, syscall.SIGINT, syscall.SIGTERM)`. -/
def notifiedSignals : List OSSignal := [.sigint, .sigterm]

/-- The lifecycle states of the single listener. -/
inductive ServerState where
  | created
  | listening
  | shuttingDown
  | stopped
  deriving DecidableEq, Repr

/-- The grace period the watcher passes to `context.WithTimeout`:
`5*time.Second` in `service.Run`. -/
def shutdownTimeoutSeconds : Nat := 5

/-- Outcome of one `server.Shutdown(ctx)` call. -/
structure ShutdownResult where
  acceptsNewConns : Bool
  inflightCompleted : Bool
  forcedClose : Bool
  err : Option String
  deriving DecidableEq, Repr

/-- Modelled from the spec: `net/http`'s `Server.Shutdown` is an external
collaborator whose definition is not in this repository.  Per the spec, it
"requests the server stop accepting new connections and waits up to a fixed
grace period for in-flight requests to finish, then forces closure if the
deadline elapses".  `inflightSeconds` is how long the in-flight requests
need to finish. -/
def serverShutdown (timeoutSeconds inflightSeconds : Nat) : ShutdownResult :=
  if inflightSeconds ≤ timeoutSeconds then
    { acceptsNewConns := false, inflightCompleted := true, forcedClose := false, err := none }
  else
    { acceptsNewConns := false, inflightCompleted := false, forcedClose := true
      err := some "context deadline exceeded" }

/-- The observable outcome of the shutdown-watcher goroutine: the
`server.Shutdown` call it made (if any), the log lines it emitted, and the
listener state it leaves behind. -/
structure WatcherTrace where
  shutdownCall : Option ShutdownResult
  logs : List LogLine
  finalState : ServerState

/-- The goroutine spawned by `service.Run` (lines 176–187): it blocks on the
notified-signal channel; on a notified signal it logs, calls
`server.Shutdown` with a 5-second-timeout context, logs any error, and logs
completion.  A signal outside `signal.Notify`'s set is never delivered to
the channel, so the watcher stays blocked and the listener keeps
listening. -/
def shutdownWatcher (received : OSSignal) (inflightSeconds : Nat) : WatcherTrace :=
  if received ∈ notifiedSignals then
    let r := serverShutdown shutdownTimeoutSeconds inflightSeconds
    { shutdownCall := some r
      logs := [.info "Graceful shutdown...\n"] ++
        (match r.err with
         | some e => [.error e]
         | none => []) ++
        [.info "Service stoped\n"]
      finalState := .stopped }
  else
    { shutdownCall := none, logs := [], finalState := .listening }

/-- The terminal outcome `ListenAndServe`/`ListenAndServeTLS` reports when
it stops: `http.ErrServerClosed` after a graceful `Shutdown`, or an
unrecoverable startup/runtime error. -/
inductive ListenOutcome where
  | serverClosed
  | failure (msg : String)
  deriving DecidableEq, Repr

/-- The observable outcome of the main thread of `service.Run`: how many
times each listener entry point was called, the log lines emitted, the
signals the watcher was subscribed to, and whether `Run` returned. -/
structure RunTrace where
  listenTLSCalls : Nat
  listenPlainCalls : Nat
  logs : List LogLine
  signalsWatched : List OSSignal
  returned : Bool

/-- `service.Run`, main thread: logs its start line, starts the listener
(TLS when `httpsEnabled`, plain otherwise) exactly once, blocks until the
listener reports the terminal outcome `listen`, logs the error unless it is
`http.ErrServerClosed`, and returns. -/
def ServiceState.Run {A S : Type} (s : ServiceState A S) (listen : ListenOutcome) :
    RunTrace :=
  let startLog : LogLine := .info ("Start listening address :" ++ toString s.options.port ++ "\n")
  let errLogs : List LogLine :=
    match listen with
    | .serverClosed => []
    | .failure m => [.error m]
  { listenTLSCalls := if s.options.httpsEnabled then 1 else 0
    listenPlainCalls := if s.options.httpsEnabled then 0 else 1
    logs := [startLog] ++ errLogs
    signalsWatched := notifiedSignals
    returned := true }

/-! ## The API handler wrapper (not under `src/`) -/

/-- Modelled from the spec: the error taxonomy the wrapper maps — "decode
failure → 400; domain not-found → 404; domain validation failure → 400/422;
unclassified domain error → 500". -/
inductive DomainError where
  | notFound
  | validation
  | internal (msg : String)

/-- Modelled from the spec: the status code the wrapper maps each domain
error to. -/
def DomainError.status : DomainError → Nat
  | .notFound => 404
  | .validation => 400
  | .internal _ => 500

/-- Modelled from the spec: the error message placed in the structured JSON
error body. -/
def DomainError.message : DomainError → String
  | .notFound => "not found"
  | .validation => "validation failed"
  | .internal m => m

/-- A request as the wrapper sees it: the result of JSON-decoding its body
(`none` embeds a body that fails to decode). -/
structure APIRequest where
  body : Option JValue

/-- Modelled from the spec: `wrapAPIHandler` (referenced at `service.go`
line 115 but defined in a repository file not under `src/`).  Per §4.2 of
the spec it decodes the request body into the handler's input, invokes the
handler, and "on success, serializes the output as JSON with status 200 and
content-type `application/json`; on error, maps the error to an HTTP status
code and a structured JSON error body (code + message)"; a decode failure
maps to 400. -/
def wrapAPIHandler (handler : JValue → Except DomainError JValue)
    (req : APIRequest) : HandlerResponse :=
  match req.body with
  | none =>
    { status := 400, contentType := some "application/json"
      body := .json (.obj [("code", .num 400), ("message", .str "decode failure")])
      probesInvoked := [] }
  | some input =>
    match handler input with
    | .ok out =>
      { status := 200, contentType := some "application/json"
        body := .json out, probesInvoked := [] }
    | .error e =>
      { status := e.status, contentType := some "application/json"
        body := .json (.obj [("code", .num (Int.ofNat e.status)), ("message", .str e.message)])
        probesInvoked := [] }

/-! ## Theorems -/

/-- C4: for every configuration, `NewService` mounts the `/health` handler
at `GET /health`, and that handler returns status 200 with an empty body,
invoking no dependency probes. -/
theorem health_always_200_empty_no_probes (A S : Type) (o : Options) :
    (⟨MethodGet, "/health", .health⟩ : MuxEntry A S) ∈ (NewService A S o).mux ∧
    MethodGet = "GET" ∧
    healthHandler.status = 200 ∧
    healthHandler.body = .empty ∧
    healthHandler.probesInvoked = [] :=
  ⟨List.mem_cons_self _ _, rfl, rfl, rfl, rfl⟩

/-- C7: `Get`, `Post`, `Put`, `Del` register the handler, wrapped by the API
handler wrapper, on the router under `GET`, `POST`, `PUT`, `DELETE`
respectively at the given path, and `Stream` registers the handler, wrapped
by the streaming wrapper, under `GET`. -/
theorem route_registration_methods (A S : Type) (s : ServiceState A S)
    (path : String) (h : A) (sh : S) :
    (s.Get path h).mux = s.mux ++ [⟨MethodGet, path, .apiWrapped h⟩] ∧
    (s.Post path h).mux = s.mux ++ [⟨MethodPost, path, .apiWrapped h⟩] ∧
    (s.Put path h).mux = s.mux ++ [⟨MethodPut, path, .apiWrapped h⟩] ∧
    (s.Del path h).mux = s.mux ++ [⟨MethodDelete, path, .apiWrapped h⟩] ∧
    (s.Stream path sh).mux = s.mux ++ [⟨MethodGet, path, .streamWrapped sh⟩] ∧
    MethodGet = "GET" ∧ MethodPost = "POST" ∧ MethodPut = "PUT" ∧
    MethodDelete = "DELETE" :=
  ⟨rfl, rfl, rfl, rfl, rfl, rfl, rfl, rfl, rfl⟩

/-- C8: for every valid JSON payload `P`, sending `P` through the API
handler wrapper around a domain handler that echoes its decoded input yields
a 200 response whose JSON body equals `P`. -/
theorem wrap_echo_roundtrip (P : JValue) :
    wrapAPIHandler (fun v => Except.ok v) ⟨some P⟩ =
      { status := 200, contentType := some "application/json"
        body := .json P, probesInvoked := [] } :=
  rfl

/-- C3: for every configuration, `NewService` mounts `/info` at `GET /info`,
and the `/info` handler returns status 200 with content-type
`application/json` and a JSON object with exactly the fields `name`,
`version`, `params` and `dependencies`, where `dependencies` holds exactly
the configured probe names, each mapped to that probe's return value at
request time. -/
theorem info_reports_configuration (A S : Type) (o : Options) :
    (⟨MethodGet, "/info", .info⟩ : MuxEntry A S) ∈ (NewService A S o).mux ∧
    (infoHandler o).status = 200 ∧
    (infoHandler o).contentType = some "application/json" ∧
    (infoHandler o).body = .json (.obj
      [("name", .str o.name),
       ("version", .str o.version),
       ("params", .obj (o.params.map fun p => (p.1, .str p.2))),
       ("dependencies", .obj (o.dependenciesInfo.map fun d => (d.1, d.2 ())))]) ∧
    (infoHandler o).probesInvoked = o.dependenciesInfo.map Prod.fst := by
  refine ⟨?_, rfl, rfl, rfl, rfl⟩
  simp [NewService]

/-- C1: `Run` watches exactly SIGINT and SIGTERM; when such a signal is
received while listening, the watcher calls `server.Shutdown` with a
5-second grace period: new connections are no longer accepted, in-flight
requests finishing within the grace period complete (no forced closure),
the deadline elapsing forces closure, and the watcher ends with the service
Stopped. -/
theorem run_graceful_shutdown_on_signal (A S : Type) (s : ServiceState A S)
    (listen : ListenOutcome) (sig : OSSignal) (inflightSeconds : Nat)
    (hsig : sig ∈ notifiedSignals) :
    (s.Run listen).signalsWatched = [.sigint, .sigterm] ∧
    shutdownTimeoutSeconds = 5 ∧
    (shutdownWatcher sig inflightSeconds).finalState = .stopped ∧
    ∃ r, (shutdownWatcher sig inflightSeconds).shutdownCall = some r ∧
      r.acceptsNewConns = false ∧
      (inflightSeconds ≤ 5 → r.inflightCompleted = true ∧ r.forcedClose = false) ∧
      (5 < inflightSeconds → r.inflightCompleted = false ∧ r.forcedClose = true) := by
  refine ⟨rfl, rfl, ?_, ?_⟩
  · simp [shutdownWatcher, hsig]
  · refine ⟨serverShutdown shutdownTimeoutSeconds inflightSeconds, ?_, ?_, ?_, ?_⟩
    · simp [shutdownWatcher, hsig]
    · by_cases h : inflightSeconds ≤ shutdownTimeoutSeconds <;>
        simp [serverShutdown, h]
    · intro h
      simp [serverShutdown, shutdownTimeoutSeconds, h]
    · intro h
      have h' : ¬ inflightSeconds ≤ 5 := by omega
      simp [serverShutdown, shutdownTimeoutSeconds, h']

/-- Witness for C1 at SIGTERM with in-flight work needing 7 seconds. -/
theorem run_graceful_shutdown_on_signal_witness :
    (OSSignal.sigterm ∈ notifiedSignals) ∧
    ((NewService Unit Unit
        ⟨"svc", "1", [], [], 8080, "", "", false⟩).Run .serverClosed).signalsWatched
      = [.sigint, .sigterm] ∧
    shutdownTimeoutSeconds = 5 ∧
    (shutdownWatcher .sigterm 7).finalState = .stopped ∧
    ∃ r, (shutdownWatcher .sigterm 7).shutdownCall = some r ∧
      r.acceptsNewConns = false ∧
      (7 ≤ 5 → r.inflightCompleted = true ∧ r.forcedClose = false) ∧
      (5 < 7 → r.inflightCompleted = false ∧ r.forcedClose = true) :=
  ⟨by decide,
   run_graceful_shutdown_on_signal Unit Unit
     (NewService Unit Unit ⟨"svc", "1", [], [], 8080, "", "", false⟩)
     .serverClosed .sigterm 7 (by decide)⟩

/-- C6: `Run` consumes the listener's terminal outcome and returns, calling
a listener entry point exactly once (no restart or retry); a failure outcome
is logged exactly once as an error line, and a graceful `ErrServerClosed`
outcome produces no error line. -/
theorem run_returns_once_listener_stops (A S : Type) (s : ServiceState A S)
    (listen : ListenOutcome) :
    (s.Run listen).returned = true ∧
    (s.Run listen).listenTLSCalls + (s.Run listen).listenPlainCalls = 1 ∧
    (∀ m, listen = .failure m →
      ((s.Run listen).logs.countP LogLine.isError = 1 ∧ .error m ∈ (s.Run listen).logs)) ∧
    (listen = .serverClosed → (s.Run listen).logs.countP LogLine.isError = 0) := by
  refine ⟨rfl, ?_, ?_, ?_⟩
  · by_cases h : s.options.httpsEnabled <;> simp [ServiceState.Run, h]
  · rintro m rfl
    simp [ServiceState.Run, List.countP_cons, LogLine.isError]
  · rintro rfl
    simp [ServiceState.Run, List.countP_cons, LogLine.isError]

/-- Witness for C6 on a port-in-use failure. -/
theorem run_returns_once_listener_stops_witness :
    ((NewService Unit Unit ⟨"svc", "1", [], [], 8080, "", "", false⟩).Run
        (.failure "listen tcp :8080: bind: address already in use")).returned = true ∧
    ((NewService Unit Unit ⟨"svc", "1", [], [], 8080, "", "", false⟩).Run
        (.failure "listen tcp :8080: bind: address already in use")).listenTLSCalls +
      ((NewService Unit Unit ⟨"svc", "1", [], [], 8080, "", "", false⟩).Run
        (.failure "listen tcp :8080: bind: address already in use")).listenPlainCalls = 1 ∧
    ((NewService Unit Unit ⟨"svc", "1", [], [], 8080, "", "", false⟩).Run
        (.failure "listen tcp :8080: bind: address already in use")).logs.countP
      LogLine.isError = 1 ∧
    LogLine.error "listen tcp :8080: bind: address already in use" ∈
      ((NewService Unit Unit ⟨"svc", "1", [], [], 8080, "", "", false⟩).Run
        (.failure "listen tcp :8080: bind: address already in use")).logs := by
  have h := run_returns_once_listener_stops Unit Unit
    (NewService Unit Unit ⟨"svc", "1", [], [], 8080, "", "", false⟩)
    (.failure "listen tcp :8080: bind: address already in use")
  exact ⟨h.1, h.2.1, (h.2.2.1 _ rfl).1, (h.2.2.1 _ rfl).2⟩

/-- C2: `Send` marshals the payload (a marshal failure is returned before
any request is issued; a `nil` payload skips marshalling); a 404 response
yields the distinguished entity-not-found error; any other response with
status outside 200–299 yields the structured API error decoded from the
response body and carrying that status code; a 2xx response yields a `nil`
error with the body decoded into `respObj`, the decode skipped when
`respObj` is `nil`. -/
theorem send_response_mapping (α : Type) (c : HTTPClient) (method url : String)
    (pb : Option String) (dec : String → DecodeResult α)
    (doer : RequestRecord → Except String HTTPResponse)
    (uE : String → Except String APIError)
    (resp : HTTPResponse) (body : String)
    (hdo : doer (builtRequest c method url (pb.getD "")) = .ok resp)
    (hread : resp.bodyRead = .ok body) :
    (∀ e, (HTTPClient.Send c method url (some (.error e)) (some dec) none doer uE).error
        = some (.wrapped "HTTPClient.Send [JSON marshal payload]" e) ∧
      (HTTPClient.Send c method url (some (.error e)) (some dec) none doer uE).requests = []) ∧
    (resp.statusCode = 404 →
      (HTTPClient.Send c method url (pb.map Except.ok) (some dec) none doer uE).error
        = some .entityNotFound) ∧
    (∀ verr, resp.statusCode ≠ 404 → (resp.statusCode < 200 ∨ 299 < resp.statusCode) →
      uE body = .ok verr →
      (HTTPClient.Send c method url (pb.map Except.ok) (some dec) none doer uE).error
        = some (.api { message := verr.message, statusCode := resp.statusCode })) ∧
    (∀ v, 200 ≤ resp.statusCode → resp.statusCode ≤ 299 → dec body = .ok v →
      (HTTPClient.Send c method url (pb.map Except.ok) (some dec) none doer uE).error = none ∧
      (HTTPClient.Send c method url (pb.map Except.ok) (some dec) none doer uE).respObjValue
        = some v) ∧
    (200 ≤ resp.statusCode → resp.statusCode ≤ 299 →
      (HTTPClient.Send c method url (pb.map Except.ok)
          (none : Option (String → DecodeResult α)) none doer uE).error = none ∧
      (HTTPClient.Send c method url (pb.map Except.ok)
          (none : Option (String → DecodeResult α)) none doer uE).respObjValue = none) := by
  refine ⟨fun e => ⟨rfl, rfl⟩, ?_, ?_, ?_, ?_⟩
  · intro h404
    cases pb <;> simp_all [HTTPClient.Send, Option.getD]
  · intro verr hne hrange huE
    obtain ⟨vm, vs⟩ := verr
    have h404f : (resp.statusCode == 404) = false := by simp [hne]
    rcases hrange with h | h <;>
      cases pb <;>
        simp_all [HTTPClient.Send, Option.getD]
  · intro v h1 h2 hv
    have h404f : (resp.statusCode == 404) = false := by
      simp only [beq_eq_false_iff_ne, ne_eq]
      omega
    have hcond : ¬ (resp.statusCode < 200 ∨ 299 < resp.statusCode) := by omega
    cases pb <;> simp only [Option.getD] at hdo <;>
      simp [HTTPClient.Send, hdo, hread, h404f, hcond, hv]
  · intro h1 h2
    have h404f : (resp.statusCode == 404) = false := by
      simp only [beq_eq_false_iff_ne, ne_eq]
      omega
    have hcond : ¬ (resp.statusCode < 200 ∨ 299 < resp.statusCode) := by omega
    cases pb <;> simp only [Option.getD] at hdo <;>
      simp [HTTPClient.Send, hdo, hread, h404f, hcond]

/-- C9 counterexample: a 200 response whose body fails to decode into the
destination — `json.Unmarshal` partially populates the destination (here it
holds 7) before returning its error — makes `Send` return a non-nil error
with the `respObj` destination modified, refuting "whenever Send returns a
non-nil error, the outResult destination is left unmodified". -/
theorem send_decode_error_modifies_respObj :
    ((HTTPClient.Send ⟨"http://svc"⟩ "GET" "/a" none
        (some fun _ => (DecodeResult.error "json: cannot unmarshal" (some 7)
          : DecodeResult Nat)) none
        (fun _ => (Except.ok ⟨200, Except.ok "respbody"⟩ : Except String HTTPResponse))
        (fun _ => (Except.error "u" : Except String APIError))).error.isSome = true) ∧
    (HTTPClient.Send ⟨"http://svc"⟩ "GET" "/a" none
        (some fun _ => (DecodeResult.error "json: cannot unmarshal" (some 7)
          : DecodeResult Nat)) none
        (fun _ => (Except.ok ⟨200, Except.ok "respbody"⟩ : Except String HTTPResponse))
        (fun _ => (Except.error "u" : Except String APIError))).respObjValue = some 7 :=
  ⟨rfl, rfl⟩

/-- C9 (amended): whenever `Send` returns a non-nil error the `respObj`
destination is left unmodified — except on the 2xx response-decode-failure
path, where the destination holds whatever the failed `json.Unmarshal`
wrote (possibly a partial population); in particular, a 404 response makes
`Send` return the distinguished not-found error with the response body
never read and the destination never written. -/
theorem send_error_respObj_frame (α : Type) (c : HTTPClient)
    (method url : String)
    (respObj : Option (String → DecodeResult α)) (newErr : Option String)
    (doer : RequestRecord → Except String HTTPResponse)
    (uE : String → Except String APIError) :
    (∀ e, (HTTPClient.Send c method url (some (.error e)) respObj newErr doer uE).respObjValue
        = none) ∧
    (∀ e pb, (HTTPClient.Send c method url (Option.map Except.ok pb) respObj (some e)
        doer uE).respObjValue = none) ∧
    (∀ pb e, doer (builtRequest c method url (Option.getD pb "")) = .error e →
      (HTTPClient.Send c method url (Option.map Except.ok pb) respObj none
        doer uE).respObjValue = none) ∧
    (∀ pb resp, doer (builtRequest c method url (Option.getD pb "")) = .ok resp →
      resp.statusCode = 404 →
      HTTPClient.Send c method url (Option.map Except.ok pb) respObj none doer uE =
        ⟨some .entityNotFound, [builtRequest c method url (Option.getD pb "")],
          none, false⟩) ∧
    (∀ pb resp e, doer (builtRequest c method url (Option.getD pb "")) = .ok resp →
      resp.statusCode ≠ 404 → resp.bodyRead = .error e →
      (HTTPClient.Send c method url (Option.map Except.ok pb) respObj none
        doer uE).respObjValue = none) ∧
    (∀ pb resp body, doer (builtRequest c method url (Option.getD pb "")) = .ok resp →
      resp.statusCode ≠ 404 → resp.bodyRead = .ok body →
      (resp.statusCode < 200 ∨ 299 < resp.statusCode) →
      (HTTPClient.Send c method url (Option.map Except.ok pb) respObj none
        doer uE).respObjValue = none) ∧
    (∀ (pb : Option String) (resp : HTTPResponse) (body e : String) (w : Option α)
        (dec : String → DecodeResult α),
      doer (builtRequest c method url (Option.getD pb "")) = .ok resp →
      resp.statusCode ≠ 404 → resp.bodyRead = .ok body →
      ¬ (resp.statusCode < 200 ∨ 299 < resp.statusCode) →
      dec body = DecodeResult.error e w →
      (HTTPClient.Send c method url (Option.map Except.ok pb) (some dec) none
          doer uE).error.isSome = true ∧
      (HTTPClient.Send c method url (Option.map Except.ok pb) (some dec) none
          doer uE).respObjValue = w) := by
  refine ⟨fun e => rfl, ?_, ?_, ?_, ?_, ?_, ?_⟩
  · intro e pb
    cases pb <;> rfl
  · intro pb e hdo
    cases pb <;> simp only [Option.getD] at hdo <;> simp [HTTPClient.Send, hdo]
  · intro pb resp hdo h404
    cases pb <;> simp only [Option.getD] at hdo ⊢ <;>
      simp [HTTPClient.Send, hdo, h404]
  · intro pb resp e hdo hne hread
    have h404f : (resp.statusCode == 404) = false := by simp [hne]
    cases pb <;> simp only [Option.getD] at hdo <;>
      simp [HTTPClient.Send, hdo, h404f, hread]
  · intro pb resp body hdo hne hread hrange
    have h404f : (resp.statusCode == 404) = false := by simp [hne]
    rcases huE : uE body with e | verr <;>
      rcases hrange with h | h <;>
        cases pb <;> simp only [Option.getD] at hdo <;>
          simp [HTTPClient.Send, hdo, h404f, hread, h, huE]
  · intro pb resp body e w dec hdo hne hread hcond hv
    have h404f : (resp.statusCode == 404) = false := by simp [hne]
    cases pb <;> simp only [Option.getD] at hdo <;>
      simp [HTTPClient.Send, hdo, h404f, hread, hcond, hv]

/-- Every `Send` run issues either no request or exactly the one built
request; with a `nil` payload its body is empty. -/
theorem send_requests_shape (α : Type) (c : HTTPClient)
    (method url : String) (payload : Option (Except String String))
    (respObj : Option (String → DecodeResult α)) (newErr : Option String)
    (doer : RequestRecord → Except String HTTPResponse)
    (uE : String → Except String APIError) :
    ((HTTPClient.Send c method url payload respObj newErr doer uE).requests = [] ∨
      ∃ b, (HTTPClient.Send c method url payload respObj newErr doer uE).requests
        = [builtRequest c method url b]) ∧
    ((HTTPClient.Send c method url none respObj newErr doer uE).requests = [] ∨
      (HTTPClient.Send c method url none respObj newErr doer uE).requests
        = [builtRequest c method url ""]) := by
  constructor
  · unfold HTTPClient.Send
    repeat' split
    all_goals simp
  · unfold HTTPClient.Send
    repeat' split
    all_goals simp_all

/-- C10: every request issued by `Send` carries a `content-type:
application/json` header, and with a `nil` payload the request body is
empty. -/
theorem send_request_content_type (α : Type) (c : HTTPClient)
    (method url : String) (payload : Option (Except String String))
    (respObj : Option (String → DecodeResult α)) (newErr : Option String)
    (doer : RequestRecord → Except String HTTPResponse)
    (uE : String → Except String APIError) (r r0 : RequestRecord)
    (hr : r ∈ (HTTPClient.Send c method url payload respObj newErr doer uE).requests)
    (hr0 : r0 ∈ (HTTPClient.Send c method url none respObj newErr doer uE).requests) :
    r.headers = [("content-type", "application/json")] ∧ r0.body = "" := by
  obtain ⟨hshape, hshape0⟩ :=
    send_requests_shape α c method url payload respObj newErr doer uE
  constructor
  · rcases hshape with hempty | ⟨b, hone⟩
    · rw [hempty] at hr
      simp at hr
    · rw [hone] at hr
      simp at hr
      simp [hr, builtRequest]
  · rcases hshape0 with hempty | hone
    · rw [hempty] at hr0
      simp at hr0
    · rw [hone] at hr0
      simp at hr0
      simp [hr0, builtRequest]

/-- Witness for C10 on a concrete 200 exchange with a nil payload. -/
theorem send_request_content_type_witness :
    (builtRequest ⟨"http://svc"⟩ "GET" "/a" "" ∈
      (HTTPClient.Send ⟨"http://svc"⟩ "GET" "/a" none
        (none : Option (String → DecodeResult Nat)) none
        (fun _ => (Except.ok ⟨200, Except.ok "1"⟩ : Except String HTTPResponse))
        (fun _ => (Except.error "u" : Except String APIError))).requests) ∧
    (builtRequest ⟨"http://svc"⟩ "GET" "/a" "").headers
      = [("content-type", "application/json")] ∧
    (builtRequest ⟨"http://svc"⟩ "GET" "/a" "").body = "" :=
  ⟨by decide,
   send_request_content_type Nat ⟨"http://svc"⟩ "GET" "/a" none none none
     (fun _ => (Except.ok ⟨200, Except.ok "1"⟩ : Except String HTTPResponse))
     (fun _ => (Except.error "u" : Except String APIError))
     (builtRequest ⟨"http://svc"⟩ "GET" "/a" "") (builtRequest ⟨"http://svc"⟩ "GET" "/a" "")
     (by decide) (by decide)⟩

/-- Witness for C2 on a mock transport returning 503 with a body whose
API-error decode yields message "x". -/
theorem send_response_mapping_witness :
    ((fun _ : RequestRecord =>
        (Except.ok ⟨503, Except.ok "errbody"⟩ : Except String HTTPResponse))
        (builtRequest ⟨"http://svc"⟩ "GET" "/x" (Option.getD none ""))
      = Except.ok (⟨503, Except.ok "errbody"⟩ : HTTPResponse)) ∧
    ((⟨503, Except.ok "errbody"⟩ : HTTPResponse).bodyRead = Except.ok "errbody") ∧
    (HTTPClient.Send ⟨"http://svc"⟩ "GET" "/x" (Option.map Except.ok none)
        (some fun _ => (DecodeResult.ok 1 : DecodeResult Nat)) none
        (fun _ => (Except.ok ⟨503, Except.ok "errbody"⟩ : Except String HTTPResponse))
        (fun _ => (Except.ok ⟨"x", 0⟩ : Except String APIError))).error
      = some (.api { message := "x", statusCode := 503 }) :=
  ⟨rfl, rfl,
   (send_response_mapping Nat ⟨"http://svc"⟩ "GET" "/x" none
       (fun _ => (DecodeResult.ok 1 : DecodeResult Nat))
       (fun _ => (Except.ok ⟨503, Except.ok "errbody"⟩ : Except String HTTPResponse))
       (fun _ => (Except.ok ⟨"x", 0⟩ : Except String APIError))
       (⟨503, Except.ok "errbody"⟩ : HTTPResponse) "errbody" rfl rfl).2.2.1
     ⟨"x", 0⟩ (by decide) (by decide) rfl⟩

/-- Witness for the amended C9: the 404 path on a mock transport, and the
2xx decode-failure path where the destination keeps the partial write. -/
theorem send_error_respObj_frame_witness :
    (HTTPClient.Send ⟨"http://svc"⟩ "GET" "/e" (Option.map Except.ok none)
        (some fun _ => (DecodeResult.ok 1 : DecodeResult Nat)) none
        (fun _ => (Except.ok ⟨404, Except.ok "nf"⟩ : Except String HTTPResponse))
        (fun _ => (Except.error "u" : Except String APIError))
      = ⟨some .entityNotFound, [builtRequest ⟨"http://svc"⟩ "GET" "/e" (Option.getD none "")],
          none, false⟩) ∧
    ((HTTPClient.Send ⟨"http://svc"⟩ "GET" "/a" (Option.map Except.ok none)
        (some fun _ => (DecodeResult.error "json: cannot unmarshal" (some 7)
          : DecodeResult Nat)) none
        (fun _ => (Except.ok ⟨200, Except.ok "respbody"⟩ : Except String HTTPResponse))
        (fun _ => (Except.error "u" : Except String APIError))).error.isSome = true) ∧
    ((HTTPClient.Send ⟨"http://svc"⟩ "GET" "/a" (Option.map Except.ok none)
        (some fun _ => (DecodeResult.error "json: cannot unmarshal" (some 7)
          : DecodeResult Nat)) none
        (fun _ => (Except.ok ⟨200, Except.ok "respbody"⟩ : Except String HTTPResponse))
        (fun _ => (Except.error "u" : Except String APIError))).respObjValue = some 7) :=
  ⟨(send_error_respObj_frame Nat ⟨"http://svc"⟩ "GET" "/e"
       (some fun _ => (DecodeResult.ok 1 : DecodeResult Nat)) none
       (fun _ => (Except.ok ⟨404, Except.ok "nf"⟩ : Except String HTTPResponse))
       (fun _ => (Except.error "u" : Except String APIError))).2.2.2.1 none
     ⟨404, Except.ok "nf"⟩ rfl rfl,
   ((send_error_respObj_frame Nat ⟨"http://svc"⟩ "GET" "/a" none none
       (fun _ => (Except.ok ⟨200, Except.ok "respbody"⟩ : Except String HTTPResponse))
       (fun _ => (Except.error "u" : Except String APIError))).2.2.2.2.2.2 none
     ⟨200, Except.ok "respbody"⟩ "respbody" "json: cannot unmarshal" (some 7)
     (fun _ => (DecodeResult.error "json: cannot unmarshal" (some 7) : DecodeResult Nat))
     rfl (by decide) rfl (by decide) rfl).1,
   ((send_error_respObj_frame Nat ⟨"http://svc"⟩ "GET" "/a" none none
       (fun _ => (Except.ok ⟨200, Except.ok "respbody"⟩ : Except String HTTPResponse))
       (fun _ => (Except.error "u" : Except String APIError))).2.2.2.2.2.2 none
     ⟨200, Except.ok "respbody"⟩ "respbody" "json: cannot unmarshal" (some 7)
     (fun _ => (DecodeResult.error "json: cannot unmarshal" (some 7) : DecodeResult Nat))
     rfl (by decide) rfl (by decide) rfl).2⟩

/-- C5 counterexample: a transport failure during a `POST` to `/cards` is
returned wrapped with the fixed context `HTTPClient.Send [Send request]`,
whose rendered message contains neither the path `/cards` nor the method
`POST` — so this error is not wrapped with context identifying the method
and path. -/
theorem send_transport_error_context_lacks_method_path :
    (HTTPClient.Send ⟨"http://svc"⟩ "POST" "/cards" none
        (none : Option (String → DecodeResult Nat)) none
        (fun _ => (Except.error "connection refused" : Except String HTTPResponse))
        (fun _ => (Except.error "u" : Except String APIError))).error
      = some (.wrapped "HTTPClient.Send [Send request]" "connection refused") ∧
    strContains
      (SendError.render (.wrapped "HTTPClient.Send [Send request]" "connection refused"))
      "/cards" = false ∧
    strContains
      (SendError.render (.wrapped "HTTPClient.Send [Send request]" "connection refused"))
      "POST" = false :=
  ⟨rfl, by decide, by decide⟩

/-- C5 (amended): every `Send` failure propagates to the caller with no
retry (at most one request is ever issued), but only the
request-construction and body-read failures are wrapped with context
identifying the method and path; marshal and transport failures are wrapped
with a fixed `Send` context; a 404 yields the distinguished not-found error
unwrapped; a decoded non-2xx yields the structured API error unwrapped,
carrying the response status code; and both response-decode failures (the
non-2xx error-body decode and the 2xx `respObj` decode) are wrapped with a
context carrying the status code and response body instead. -/
theorem send_error_contexts_no_retry (α : Type) (c : HTTPClient)
    (method url : String) (payload : Option (Except String String))
    (respObj : Option (String → DecodeResult α)) (newErr : Option String)
    (doer : RequestRecord → Except String HTTPResponse)
    (uE : String → Except String APIError) :
    (HTTPClient.Send c method url payload respObj newErr doer uE).requests.length ≤ 1 ∧
    (∀ e, (HTTPClient.Send c method url (some (.error e)) respObj newErr doer uE).error
        = some (.wrapped "HTTPClient.Send [JSON marshal payload]" e)) ∧
    (∀ e pb,
      (HTTPClient.Send c method url (Option.map Except.ok pb) respObj (some e) doer uE).error
        = some (.wrapped ("HTTPClient.Send [Method: " ++ method ++ " Path: " ++ url ++ " ]")
            e)) ∧
    (∀ pb e, doer (builtRequest c method url (Option.getD pb "")) = .error e →
      (HTTPClient.Send c method url (Option.map Except.ok pb) respObj none doer uE).error
        = some (.wrapped "HTTPClient.Send [Send request]" e)) ∧
    (∀ pb resp e, doer (builtRequest c method url (Option.getD pb "")) = .ok resp →
      resp.statusCode ≠ 404 → resp.bodyRead = .error e →
      (HTTPClient.Send c method url (Option.map Except.ok pb) respObj none doer uE).error
        = some (.wrapped ("HTTPClient.Send [ReadBody (Method: " ++ method ++ " Path: "
            ++ url ++ " Body: " ++ Option.getD pb "" ++ ")]") e)) ∧
    (∀ pb resp body e, doer (builtRequest c method url (Option.getD pb "")) = .ok resp →
      resp.statusCode ≠ 404 → resp.bodyRead = .ok body →
      (resp.statusCode < 200 ∨ 299 < resp.statusCode) → uE body = .error e →
      (HTTPClient.Send c method url (Option.map Except.ok pb) respObj none doer uE).error
        = some (.wrapped ("CardsServiceClient.Send [UnmarshalResponseErr(status code: "
            ++ toString resp.statusCode ++ " body: " ++ body ++ ")]") e)) ∧
    (∀ pb resp, doer (builtRequest c method url (Option.getD pb "")) = .ok resp →
      resp.statusCode = 404 →
      (HTTPClient.Send c method url (Option.map Except.ok pb) respObj none doer uE).error
        = some .entityNotFound) ∧
    (∀ pb resp body verr, doer (builtRequest c method url (Option.getD pb "")) = .ok resp →
      resp.statusCode ≠ 404 → resp.bodyRead = .ok body →
      (resp.statusCode < 200 ∨ 299 < resp.statusCode) → uE body = .ok verr →
      (HTTPClient.Send c method url (Option.map Except.ok pb) respObj none doer uE).error
        = some (.api { message := verr.message, statusCode := resp.statusCode })) ∧
    (∀ (pb : Option String) (resp : HTTPResponse) (body e : String) (w : Option α)
        (dec : String → DecodeResult α),
      doer (builtRequest c method url (Option.getD pb "")) = .ok resp →
      resp.statusCode ≠ 404 → resp.bodyRead = .ok body →
      ¬ (resp.statusCode < 200 ∨ 299 < resp.statusCode) →
      dec body = DecodeResult.error e w →
      (HTTPClient.Send c method url (Option.map Except.ok pb) (some dec) none doer uE).error
        = some (.wrapped ("CardsServiceClient.Send [UnmarshalResponseErr(status code: "
            ++ toString resp.statusCode ++ " body: " ++ body ++ ")]") e)) := by
  refine ⟨?_, fun e => rfl, ?_, ?_, ?_, ?_, ?_, ?_, ?_⟩
  · have hs := (send_requests_shape α c method url payload respObj newErr doer uE).1
    rcases hs with h | ⟨b, h⟩ <;> simp [h]
  · intro e pb
    cases pb <;> rfl
  · intro pb e hdo
    cases pb <;> simp only [Option.getD] at hdo <;> simp [HTTPClient.Send, hdo]
  · intro pb resp e hdo hne hread
    have h404f : (resp.statusCode == 404) = false := by simp [hne]
    cases pb <;> simp only [Option.getD] at hdo ⊢ <;>
      simp [HTTPClient.Send, hdo, h404f, hread]
  · intro pb resp body e hdo hne hread hrange huE
    have h404f : (resp.statusCode == 404) = false := by simp [hne]
    rcases hrange with h | h <;>
      cases pb <;> simp only [Option.getD] at hdo ⊢ <;>
        simp [HTTPClient.Send, hdo, h404f, hread, h, huE]
  · intro pb resp hdo h404
    cases pb <;> simp only [Option.getD] at hdo ⊢ <;>
      simp [HTTPClient.Send, hdo, h404]
  · intro pb resp body verr hdo hne hread hrange huE
    obtain ⟨vm, vs⟩ := verr
    have h404f : (resp.statusCode == 404) = false := by simp [hne]
    rcases hrange with h | h <;>
      cases pb <;> simp only [Option.getD] at hdo <;>
        simp [HTTPClient.Send, hdo, h404f, hread, h, huE]
  · intro pb resp body e w dec hdo hne hread hcond hv
    have h404f : (resp.statusCode == 404) = false := by simp [hne]
    cases pb <;> simp only [Option.getD] at hdo <;>
      simp [HTTPClient.Send, hdo, h404f, hread, hcond, hv]

/-- Witness for the amended C5 on a concrete transport failure. -/
theorem send_error_contexts_no_retry_witness :
    ((fun _ : RequestRecord =>
        (Except.error "connection refused" : Except String HTTPResponse))
        (builtRequest ⟨"http://svc"⟩ "POST" "/cards" (Option.getD none ""))
      = Except.error "connection refused") ∧
    ((HTTPClient.Send ⟨"http://svc"⟩ "POST" "/cards" none
        (none : Option (String → DecodeResult Nat)) none
        (fun _ => (Except.error "connection refused" : Except String HTTPResponse))
        (fun _ => (Except.error "u" : Except String APIError))).requests.length ≤ 1) ∧
    (HTTPClient.Send ⟨"http://svc"⟩ "POST" "/cards" (Option.map Except.ok none)
        (none : Option (String → DecodeResult Nat)) none
        (fun _ => (Except.error "connection refused" : Except String HTTPResponse))
        (fun _ => (Except.error "u" : Except String APIError))).error
      = some (.wrapped "HTTPClient.Send [Send request]" "connection refused") :=
  ⟨rfl,
   (send_error_contexts_no_retry Nat ⟨"http://svc"⟩ "POST" "/cards" none none none
       (fun _ => (Except.error "connection refused" : Except String HTTPResponse))
       (fun _ => (Except.error "u" : Except String APIError))).1,
   (send_error_contexts_no_retry Nat ⟨"http://svc"⟩ "POST" "/cards" none none none
       (fun _ => (Except.error "connection refused" : Except String HTTPResponse))
       (fun _ => (Except.error "u" : Except String APIError))).2.2.2.1 none
     "connection refused" rfl⟩

end CoreKit
